import Mathlib

set_option maxRecDepth 40000

namespace Goanf

/- Shallow embedding of the go-anf repository: pkg/uri (resource id
   parsing and classification), pkg/utils (helpers and unit conversion)
   and pkg/sdkutils (gateway operations and convergence pollers).
   Go strings are modelled as lists of characters, so Go byte indices
   become character indices (the repository handles ASCII resource ids);
   Go functions that can panic are modelled with Option, none being the
   panic. Remote SDK calls are abstracted by explicit result arguments. -/

/-- Model of Go unicode.IsSpace restricted to the Latin-1 range, which is
all TrimSpace can see on the ASCII resource ids this repository handles. -/
def goIsSpace (c : Char) : Bool :=
  c = ' ' || c = '\t' || c = '\n' || c = '\x0b' || c = '\x0c' || c = '\r' ||
    c = '\u0085' || c = ' '

/-- Model of Go strings.TrimSpace: drop leading and trailing space. -/
def trimSpace (s : List Char) : List Char :=
  ((s.dropWhile goIsSpace).reverse.dropWhile goIsSpace).reverse

/-- Boolean test that pat is a leading run of s (Go strings.HasPrefix). -/
def isPfx : List Char → List Char → Bool
  | [], _ => true
  | _ :: _, [] => false
  | a :: as, b :: bs => a == b && isPfx as bs

/-- Model of Go strings.Index: position of the first occurrence of pat in
s, none when absent (Go returns -1 there, and 0 for an empty pat). -/
def idxOf? (pat : List Char) : List Char → Option Nat
  | [] => if isPfx pat [] then some 0 else none
  | c :: s => if isPfx pat (c :: s) then some 0 else (idxOf? pat s).map (· + 1)

/-- Model of Go strings.LastIndex: position of the last occurrence. -/
def lastIdxOf? (pat : List Char) : List Char → Option Nat
  | [] => if isPfx pat [] then some 0 else none
  | c :: s =>
    match lastIdxOf? pat s with
    | some n => some (n + 1)
    | none => if isPfx pat (c :: s) then some 0 else none

/-- Fuel-driven splitter behind goSplit; fuel bounds the recursion. -/
def goSplitAux (sep : List Char) : Nat → List Char → List (List Char)
  | 0, s => [s]
  | fuel + 1, s =>
    match idxOf? sep s with
    | none => [s]
    | some n => s.take n :: goSplitAux sep fuel (s.drop (n + sep.length))

/-- Model of Go strings.Split for a nonempty separator (the only way the
repository calls it): split around each occurrence, left to right. -/
def goSplit (sep s : List Char) : List (List Char) :=
  if sep = [] then [s] else goSplitAux sep (s.length + 1) s

/-- Model of Go strings.ToLower at ASCII granularity. -/
def toLowerL (s : List Char) : List Char := s.map Char.toLower

/-- The provider token from pkg/uri/uri.go. -/
def netAppResourceProviderName : List Char := "Microsoft.NetApp".data

/-- Lines 34-40 of uri.go: prepend a slash when missing. -/
def addSlash (s : List Char) : List Char := if isPfx ['/'] s then s else '/' :: s

/-- Core of GetResourceValue (uri.go lines 42-61) after the emptiness
checks and slash normalization. The compound resourceGroups special case
indexes element 1 of a split without a bound check; none models the Go
index-out-of-range panic. The regular case guards the same access. -/
def getResourceValueCore (uri name : List Char) : Option (List Char) :=
  if (idxOf? (toLowerL ("/resourceGroups".data ++ name)) (toLowerL uri)).isSome then
    (goSplit ['/'] ((goSplit (toLowerL name) (toLowerL uri)).getLastD []))[1]?
  else
    match idxOf? (toLowerL name) (toLowerL uri) with
    | some n =>
      if 1 < (goSplit ['/'] (uri.drop (n + name.length))).length then
        some ((goSplit ['/'] (uri.drop (n + name.length))).getD 1 [])
      else some []
    | none => some []

/-- Model of uri.GetResourceValue; some [] is the Go empty-string return. -/
def GetResourceValue (resourceURI resourceName : List Char) : Option (List Char) :=
  if (trimSpace resourceURI).length = 0 then some []
  else if (trimSpace resourceName).length = 0 then some []
  else getResourceValueCore (addSlash resourceURI) (addSlash resourceName)

/-- Model of uri.GetANFVolume; its final empty-check is the identity on
the value returned by GetResourceValue, so it is folded away here. -/
def GetANFVolume (resourceURI : List Char) : Option (List Char) :=
  if (trimSpace resourceURI).length = 0 then some []
  else GetResourceValue resourceURI ("/volumes".data)

/-- Model of uri.IsANFResource: case-sensitive provider-token search. -/
def IsANFResource (resourceURI : List Char) : Bool :=
  if (trimSpace resourceURI).length = 0 then false
  else (idxOf? netAppResourceProviderName resourceURI).isSome

/-- Model of uri.IsANFSnapshot. -/
def IsANFSnapshot (resourceURI : List Char) : Bool :=
  if (trimSpace resourceURI).length = 0 || !(IsANFResource resourceURI) then false
  else (lastIdxOf? "/snapshots/".data resourceURI).isSome

/-- Model of uri.IsANFVolume. -/
def IsANFVolume (resourceURI : List Char) : Bool :=
  if (trimSpace resourceURI).length = 0 || !(IsANFResource resourceURI) then false
  else !(IsANFSnapshot resourceURI) && (lastIdxOf? "/volumes/".data resourceURI).isSome

/-- Model of uri.IsANFCapacityPool. -/
def IsANFCapacityPool (resourceURI : List Char) : Bool :=
  if (trimSpace resourceURI).length = 0 || !(IsANFResource resourceURI) then false
  else !(IsANFSnapshot resourceURI) && !(IsANFVolume resourceURI) &&
    (lastIdxOf? "/capacityPools/".data resourceURI).isSome

/-- Model of uri.IsANFSnapshotPolicy. -/
def IsANFSnapshotPolicy (resourceURI : List Char) : Bool :=
  if (trimSpace resourceURI).length = 0 || !(IsANFResource resourceURI) then false
  else !(IsANFSnapshot resourceURI) && !(IsANFVolume resourceURI) &&
    !(IsANFCapacityPool resourceURI) &&
    (lastIdxOf? "/snapshotPolicies/".data resourceURI).isSome

/-- Model of uri.IsANFAccount, with its two extra negative checks. -/
def IsANFAccount (resourceURI : List Char) : Bool :=
  if (trimSpace resourceURI).length = 0 || !(IsANFResource resourceURI) then false
  else !(IsANFSnapshot resourceURI) && !(IsANFVolume resourceURI) &&
    !(IsANFCapacityPool resourceURI) && !(IsANFSnapshotPolicy resourceURI) &&
    !(lastIdxOf? "/snapshotPolicies/".data resourceURI).isSome &&
    !(lastIdxOf? "/backupPolicies/".data resourceURI).isSome &&
    (lastIdxOf? "/netAppAccounts/".data resourceURI).isSome

/-- The five kind classifications of a path, in source order. -/
def kindFlags (s : List Char) : List Bool :=
  [IsANFSnapshot s, IsANFVolume s, IsANFCapacityPool s,
   IsANFSnapshotPolicy s, IsANFAccount s]

/-- Model of utils.Contains. -/
def Contains : List (List Char) → List Char → Bool
  | [], _ => false
  | e :: rest, x => if e = x then true else Contains rest x

/-- Index-tracking helper behind FindInSlice. -/
def findInSliceAux : List (List Char) → List Char → Nat → Int × Bool
  | [], _, _ => (-1, false)
  | item :: rest, v, i => if item = v then ((i : Int), true) else findInSliceAux rest v (i + 1)

/-- Model of utils.FindInSlice. -/
def FindInSlice (slice : List (List Char)) (val : List Char) : Int × Bool :=
  findInSliceAux slice val 0

/-- One uint32 modulus. -/
def U32 : Nat := 2 ^ 32

/-- Model of utils.GetBytesInTiB: uint64 division, then the narrowing
conversion to uint32 truncates modulo 2 to the 32. -/
def GetBytesInTiB (size : Nat) : Nat := size / 1024 / 1024 / 1024 / 1024 % U32

/-- Model of utils.GetTiBInBytes: the product is evaluated left to right
entirely in uint32 arithmetic (each step modulo 2 to the 32) before the
widening conversion to uint64. -/
def GetTiBInBytes (size : Nat) : Nat :=
  size * 1024 % U32 * 1024 % U32 * 1024 % U32 * 1024 % U32

/-- Go error values produced by pkg/sdkutils: either a plain message from
fmt.Errorf, or a message wrapping an inner error via the percent-v verb. -/
inductive GoErr where
  | msg (text : List Char)
  | wrap (text : List Char) (inner : GoErr)
deriving DecidableEq

/-- The armnetapp.ServiceLevel enumeration of the vendor SDK. -/
inductive ServiceLevel where
  | ultra
  | premium
  | standard
deriving DecidableEq

/-- Rendering of armnetapp.PossibleServiceLevelValues() by the percent-v
verb, per the vendor SDK declaration order Premium, Standard, Ultra. -/
def possibleServiceLevelValuesText : List Char := "[Premium Standard Ultra]".data

/-- Error message of sdkutils.validateANFServiceLevel's default branch. -/
def invalidServiceLevelMsg : List Char :=
  "invalid service level, supported service levels are: ".data ++
    possibleServiceLevelValuesText

/-- Model of sdkutils.validateANFServiceLevel: switch on ToLower of the
input over the three tiers, error enumerating the valid tiers otherwise. -/
def validateANFServiceLevel (serviceLevel : List Char) : Except GoErr ServiceLevel :=
  if toLowerL serviceLevel = "ultra".data then .ok .ultra
  else if toLowerL serviceLevel = "premium".data then .ok .premium
  else if toLowerL serviceLevel = "standard".data then .ok .standard
  else .error (.msg invalidServiceLevelMsg)

/-- Protocol constant nfsv3 of sdkutils. -/
def nfsv3 : List Char := "NFSv3".data

/-- Protocol constant nfsv41 of sdkutils. -/
def nfsv41 : List Char := "NFSv4.1".data

/-- Protocol constant cifs of sdkutils. -/
def cifs : List Char := "CIFS".data

/-- The validProtocols slice of sdkutils. -/
def validProtocols : List (List Char) := [nfsv3, nfsv41, cifs]

/-- Rendering of the validProtocols slice by the percent-v verb. -/
def validProtocolsText : List Char := "[NFSv3 NFSv4.1 CIFS]".data

/-- The protocol validations opening sdkutils.CreateANFVolume (lines
246-257): none models the Go panic of the unguarded protocolTypes[0]
access on an empty list; some (some e) is an early error return; some
none means the protocol checks pass. -/
def checkVolumeProtocols (protocolTypes : List (List Char)) : Option (Option GoErr) :=
  if 2 < protocolTypes.length then
    some (some (.msg "maximum of two protocol types are supported".data))
  else if 1 < protocolTypes.length ∧ Contains protocolTypes nfsv41 = true then
    some (some (.msg "only cifs/nfsv3 protocol types are supported as dual protocol".data))
  else
    match protocolTypes.head? with
    | none => none
    | some p0 =>
      if (FindInSlice validProtocols p0).2 = false then
        some (some (.msg ("invalid protocol type, valid protocol types are: ".data ++
          validProtocolsText)))
      else some none

/-- Model of sdkutils.CreateANFVolume over an abstract remote: clientErr
is the getVolumesClient failure, beginRes the BeginCreateOrUpdate result
and pollRes the PollUntilDone result; the export-policy and property
plumbing carries no control flow and is folded into the abstract response
value. none models the panic on an empty protocol list. -/
def CreateANFVolume (α : Type) (protocolTypes : List (List Char))
    (serviceLevel : List Char) (clientErr : Option GoErr)
    (beginRes : Except GoErr Unit) (pollRes : Except GoErr α) :
    Option (Except GoErr α) :=
  match checkVolumeProtocols protocolTypes with
  | none => none
  | some (some e) => some (.error e)
  | some none =>
    match validateANFServiceLevel serviceLevel with
    | .error e => some (.error e)
    | .ok _ =>
      match clientErr with
      | some e => some (.error e)
      | none =>
        match beginRes with
        | .error e => some (.error (.wrap "cannot create volume: ".data e))
        | .ok _ =>
          match pollRes with
          | .error e =>
            some (.error (.wrap "cannot get the volume create or update future response: ".data e))
          | .ok v => some (.ok v)

/-- Model of sdkutils.CreateANFAccount over an abstract remote. -/
def CreateANFAccount (α : Type) (clientErr : Option GoErr)
    (beginRes : Except GoErr Unit) (pollRes : Except GoErr α) : Except GoErr α :=
  match clientErr with
  | some e => .error e
  | none =>
    match beginRes with
    | .error e => .error (.wrap "cannot create account: ".data e)
    | .ok _ =>
      match pollRes with
      | .error e => .error (.wrap "cannot get the account create or update future response: ".data e)
      | .ok v => .ok v

/-- Model of sdkutils.CreateANFCapacityPool: client first, then service
level validation, then the asynchronous create with completion wait. -/
def CreateANFCapacityPool (α : Type) (serviceLevel : List Char)
    (clientErr : Option GoErr) (beginRes : Except GoErr Unit)
    (pollRes : Except GoErr α) : Except GoErr α :=
  match clientErr with
  | some e => .error e
  | none =>
    match validateANFServiceLevel serviceLevel with
    | .error e => .error e
    | .ok _ =>
      match beginRes with
      | .error e => .error (.wrap "cannot create pool: ".data e)
      | .ok _ =>
        match pollRes with
        | .error e => .error (.wrap "cannot get the pool create or update future response: ".data e)
        | .ok v => .ok v

/-- Model of sdkutils.UpdateANFVolume; the completion error is returned
unwrapped, exactly as in the source. -/
def UpdateANFVolume (α : Type) (clientErr : Option GoErr)
    (beginRes : Except GoErr Unit) (pollRes : Except GoErr α) : Except GoErr α :=
  match clientErr with
  | some e => .error e
  | none =>
    match beginRes with
    | .error e => .error (.wrap "cannot update volume: ".data e)
    | .ok _ =>
      match pollRes with
      | .error e => .error e
      | .ok v => .ok v

/-- Model of sdkutils.CreateANFSnapshot over an abstract remote. -/
def CreateANFSnapshot (α : Type) (clientErr : Option GoErr)
    (beginRes : Except GoErr Unit) (pollRes : Except GoErr α) : Except GoErr α :=
  match clientErr with
  | some e => .error e
  | none =>
    match beginRes with
    | .error e => .error (.wrap "cannot create snapshot: ".data e)
    | .ok _ =>
      match pollRes with
      | .error e => .error (.wrap "cannot get the snapshot create or update future response: ".data e)
      | .ok v => .ok v

/-- Model of sdkutils.CreateANFSnapshotPolicy: a synchronous create. -/
def CreateANFSnapshotPolicy (α : Type) (clientErr : Option GoErr)
    (createRes : Except GoErr α) : Except GoErr α :=
  match clientErr with
  | some e => .error e
  | none =>
    match createRes with
    | .error e => .error (.wrap "cannot create snapshot policy: ".data e)
    | .ok v => .ok v

/-- Model of sdkutils.UpdateANFSnapshotPolicy. The source assigns the
PollUntilDone error but never tests it and returns a nil error with the
response unconditionally; zero is the Go zero value the response has when
the poll failed. -/
def UpdateANFSnapshotPolicy (α : Type) (clientErr : Option GoErr)
    (beginRes : Except GoErr Unit) (pollRes : Except GoErr α) (zero : α) :
    Except GoErr α :=
  match clientErr with
  | some e => .error e
  | none =>
    match beginRes with
    | .error e => .error (.wrap "cannot update snapshot policy: ".data e)
    | .ok _ => .ok (match pollRes with | .ok v => v | .error _ => zero)

/-- Poller results: the retries-exceeded error of WaitForNoANFResource
and the still-not-found error of WaitForANFResource (carrying the retry
count and the last observed error, per the Go format strings). -/
inductive PollErr where
  | exceededRetries (retries : Nat)
  | stillNotFound (retries : Nat) (last : Option GoErr)
deriving DecidableEq

/-- The dispatch-by-kind block shared by both pollers: exactly one client
is probed when a classifier matches (the Get versus ReplicationStatus
choice inside the volume branch is both covered by the oracle get), and
the err variable keeps its previous value when none matches. Returns the
new err value and the number of remote calls made (0 or 1). -/
def dispatchGet (rid : List Char) (get : Nat → Option GoErr)
    (err : Option GoErr) (i : Nat) : Option GoErr × Nat :=
  if IsANFSnapshot rid then (get i, 1)
  else if IsANFVolume rid then (get i, 1)
  else if IsANFCapacityPool rid then (get i, 1)
  else if IsANFSnapshotPolicy rid then (get i, 1)
  else if IsANFAccount rid then (get i, 1)
  else (err, 0)

/-- Whether some classifier matches, i.e. the dispatch makes a call. -/
def anfKindMatch (rid : List Char) : Bool :=
  IsANFSnapshot rid || IsANFVolume rid || IsANFCapacityPool rid ||
    IsANFSnapshotPolicy rid || IsANFAccount rid

/-- Loop of WaitForNoANFResource: fuel is the remaining retries, i the
iteration counter, err the loop variable. Returns sleeps performed,
remote calls made, and whether the loop returned early (err non-nil,
deletion confirmed). Each iteration sleeps first, then dispatches. -/
def waitForNoAux (rid : List Char) (get : Nat → Option GoErr) :
    Option GoErr → Nat → Nat → Nat × Nat × Bool
  | _, _, 0 => (0, 0, false)
  | err, i, fuel + 1 =>
    let d := dispatchGet rid get err i
    if d.1.isSome then (1, d.2, true)
    else
      let r := waitForNoAux rid get d.1 (i + 1) fuel
      (r.1 + 1, d.2 + r.2.1, r.2.2)

/-- Model of sdkutils.WaitForNoANFResource: (sleeps, remote calls,
result); a get error means the resource is gone, which is success. -/
def WaitForNoANFResource (rid : List Char) (get : Nat → Option GoErr)
    (retries : Nat) : Nat × Nat × Except PollErr Unit :=
  match waitForNoAux rid get none 0 retries with
  | (s, g, true) => (s, g, .ok ())
  | (s, g, false) => (s, g, .error (.exceededRetries retries))

/-- Loop of WaitForANFResource: same skeleton, early exit when err is
nil; when the fuel runs out the carried err is the last observed error. -/
def waitForAux (rid : List Char) (get : Nat → Option GoErr) :
    Option GoErr → Nat → Nat → Nat × Nat × Option (Option GoErr)
  | err, _, 0 => (0, 0, some err)
  | err, i, fuel + 1 =>
    let d := dispatchGet rid get err i
    if d.1 = none then (1, d.2, none)
    else
      let r := waitForAux rid get d.1 (i + 1) fuel
      (r.1 + 1, d.2 + r.2.1, r.2.2)

/-- Model of sdkutils.WaitForANFResource: (sleeps, remote calls, result);
nil on the first successful get, still-not-found after all retries. -/
def WaitForANFResource (rid : List Char) (get : Nat → Option GoErr)
    (retries : Nat) : Nat × Nat × Except PollErr Unit :=
  match waitForAux rid get none 0 retries with
  | (s, g, none) => (s, g, .ok ())
  | (s, g, some e) => (s, g, .error (.stillNotFound retries e))

/-- Concrete volume path used to exercise the pollers. -/
def vPath : List Char := "/Microsoft.NetApp/volumes/v".data

/-- Concrete path matched by no classifier. -/
def inertPath : List Char := "/foo".data

/-- Oracle whose every get fails. -/
def errOracle : Nat → Option GoErr := fun _ => some (.msg "e".data)

/-- Oracle whose every get succeeds. -/
def nilOracle : Nat → Option GoErr := fun _ => none

end Goanf

deriving instance DecidableEq for Except

namespace Goanf

/-- The dispatch block probes the remote exactly when some classifier
matches, and otherwise leaves the err variable untouched. -/
theorem dispatchGet_eq (rid : List Char) (get : Nat → Option GoErr)
    (err : Option GoErr) (i : Nat) :
    dispatchGet rid get err i =
      if anfKindMatch rid then (get i, 1) else (err, 0) := by
  unfold dispatchGet anfKindMatch
  cases hS : IsANFSnapshot rid <;> cases hV : IsANFVolume rid <;>
    cases hP : IsANFCapacityPool rid <;> cases hQ : IsANFSnapshotPolicy rid <;>
    cases hA : IsANFAccount rid <;> simp

/-- Absence loop, classifiable path, every get succeeding: all retries
run, one call per iteration, no early exit. -/
theorem waitForNoAux_all_none (rid : List Char) (get : Nat → Option GoErr)
    (hc : anfKindMatch rid = true) (hget : ∀ i, get i = none) :
    ∀ fuel i, waitForNoAux rid get none i fuel = (fuel, fuel, false) := by
  intro fuel
  induction fuel with
  | zero => intro i; rfl
  | succ f ih =>
    intro i
    simp [waitForNoAux, dispatchGet_eq, hc, hget, ih (i + 1)]
    omega

/-- Absence loop, classifiable path, first get failing: early exit after
one sleep and one call. -/
theorem waitForNoAux_first_some (rid : List Char) (get : Nat → Option GoErr)
    (err : Option GoErr) (i fuel : Nat)
    (hc : anfKindMatch rid = true) (h : (get i).isSome = true) :
    waitForNoAux rid get err i (fuel + 1) = (1, 1, true) := by
  simp [waitForNoAux, dispatchGet_eq, hc, h]

/-- One unfolding step of the presence loop on a classifiable path. -/
theorem waitForAux_step (rid : List Char) (get : Nat → Option GoErr)
    (err : Option GoErr) (i fuel : Nat) (hc : anfKindMatch rid = true) :
    waitForAux rid get err i (fuel + 1) =
      if get i = none then (1, 1, none)
      else ((waitForAux rid get (get i) (i + 1) fuel).1 + 1,
        1 + (waitForAux rid get (get i) (i + 1) fuel).2.1,
        (waitForAux rid get (get i) (i + 1) fuel).2.2) := by
  simp [waitForAux, dispatchGet_eq, hc]

/-- Presence loop, classifiable path, every get failing: all retries run
and the carried error is the last observed one. -/
theorem waitForAux_all_some (rid : List Char) (get : Nat → Option GoErr)
    (hc : anfKindMatch rid = true) (hget : ∀ i, (get i).isSome = true) :
    ∀ fuel i err, waitForAux rid get err i (fuel + 1) =
      (fuel + 1, fuel + 1, some (get (i + fuel))) := by
  intro fuel
  induction fuel with
  | zero =>
    intro i err
    have h0 : ¬(get i = none) := by
      intro hn; have := hget i; rw [hn] at this; simp at this
    rw [waitForAux_step rid get err i 0 hc, if_neg h0]
    simp [waitForAux]
  | succ f ih =>
    intro i err
    have h0 : ¬(get i = none) := by
      intro hn; have := hget i; rw [hn] at this; simp at this
    rw [waitForAux_step rid get err i (f + 1) hc, if_neg h0, ih (i + 1) (get i),
      show i + 1 + f = i + (f + 1) from by omega]
    simp only [Prod.mk.injEq, and_true, true_and]
    omega

/-- Presence loop, classifiable path, first successful get at position k:
early exit after k plus one sleeps and as many calls. -/
theorem waitForAux_first_none (rid : List Char) (get : Nat → Option GoErr)
    (hc : anfKindMatch rid = true) :
    ∀ k fuel i err, k < fuel → (∀ j, j < k → (get (i + j)).isSome = true) →
      get (i + k) = none →
      waitForAux rid get err i fuel = (k + 1, k + 1, none) := by
  intro k
  induction k with
  | zero =>
    intro fuel i err hk hb hl
    cases fuel with
    | zero => omega
    | succ f =>
      rw [waitForAux_step rid get err i f hc, if_pos (by simpa using hl)]
  | succ k ih =>
    intro fuel i err hk hb hl
    cases fuel with
    | zero => omega
    | succ f =>
      have h0 : ¬(get i = none) := by
        have hi := hb 0 (by omega)
        intro hn
        rw [show i + 0 = i from rfl, hn] at hi
        simp at hi
      rw [waitForAux_step rid get err i f hc, if_neg h0,
        ih f (i + 1) (get i) (by omega)
          (fun j hj => by
            have hji := hb (j + 1) (by omega)
            rwa [show i + (j + 1) = i + 1 + j from by omega] at hji)
          (by rwa [show i + 1 + k = i + (k + 1) from by omega])]
      simp only [Prod.mk.injEq, and_true, true_and]
      omega

/-- Absence loop on an unclassifiable path: no call is ever made, err
stays nil, all retries run. -/
theorem waitForNoAux_none_kind (rid : List Char) (get : Nat → Option GoErr)
    (hnc : anfKindMatch rid = false) :
    ∀ fuel i, waitForNoAux rid get none i fuel = (fuel, 0, false) := by
  intro fuel
  induction fuel with
  | zero => intro i; rfl
  | succ f ih =>
    intro i
    simp [waitForNoAux, dispatchGet_eq, hnc, ih (i + 1)]

/-- A volume path is not a snapshot path, by the built-in negation. -/
theorem vol_excl (s : List Char) (h : IsANFVolume s = true) :
    IsANFSnapshot s = false := by
  unfold IsANFVolume at h
  split at h
  · exact absurd h (by simp)
  · simp only [Bool.and_eq_true, Bool.not_eq_true'] at h
    exact h.1

/-- A capacity-pool path is neither snapshot nor volume. -/
theorem pool_excl (s : List Char) (h : IsANFCapacityPool s = true) :
    IsANFSnapshot s = false ∧ IsANFVolume s = false := by
  unfold IsANFCapacityPool at h
  split at h
  · exact absurd h (by simp)
  · simp only [Bool.and_eq_true, Bool.not_eq_true'] at h
    exact ⟨h.1.1, h.1.2⟩

/-- A snapshot-policy path is none of the three more specific kinds. -/
theorem pol_excl (s : List Char) (h : IsANFSnapshotPolicy s = true) :
    IsANFSnapshot s = false ∧ IsANFVolume s = false ∧
      IsANFCapacityPool s = false := by
  unfold IsANFSnapshotPolicy at h
  split at h
  · exact absurd h (by simp)
  · simp only [Bool.and_eq_true, Bool.not_eq_true'] at h
    exact ⟨h.1.1.1, h.1.1.2, h.1.2⟩

/-- An account path is none of the four more specific kinds. -/
theorem acct_excl (s : List Char) (h : IsANFAccount s = true) :
    IsANFSnapshot s = false ∧ IsANFVolume s = false ∧
      IsANFCapacityPool s = false ∧ IsANFSnapshotPolicy s = false := by
  unfold IsANFAccount at h
  split at h
  · exact absurd h (by simp)
  · simp only [Bool.and_eq_true, Bool.not_eq_true'] at h
    exact ⟨h.1.1.1.1.1.1, h.1.1.1.1.1.2, h.1.1.1.1.2, h.1.1.1.2⟩

/-- C6: for every input string, at most one of the five classification
predicates IsANFSnapshot, IsANFVolume, IsANFCapacityPool,
IsANFSnapshotPolicy, IsANFAccount returns true, well-formed or not. -/
theorem c6_classifiers_mutually_exclusive (s : List Char) :
    (kindFlags s).count true ≤ 1 := by
  have h1 := vol_excl s
  have h2 := pool_excl s
  have h3 := pol_excl s
  have h4 := acct_excl s
  cases hS : IsANFSnapshot s <;> cases hV : IsANFVolume s <;>
    cases hP : IsANFCapacityPool s <;> cases hQ : IsANFSnapshotPolicy s <;>
    cases hA : IsANFAccount s <;>
    simp_all [kindFlags]

/-- C2: on a classifiable path with maxRetries 3, WaitForNoANFResource
succeeds after exactly one sleep and one call when every get errors, and
reports retries-exceeded after exactly three sleeps when no get errors;
WaitForANFResource mirrors this: it returns nil right at the first
successful get (k plus one sleeps when the first success is the k-th
probe) and, when only failing gets occur, reports the retry count and the
last observed error after three sleeps. The sleep counts equalling the
iteration counts shows a sleep precedes every check, the first included. -/
theorem c2_pollers_with_three_retries (rid : List Char)
    (hc : anfKindMatch rid = true) :
    (∀ get : Nat → Option GoErr, (∀ i, (get i).isSome = true) →
      WaitForNoANFResource rid get 3 = (1, 1, .ok ())) ∧
    (∀ get : Nat → Option GoErr, (∀ i, get i = none) →
      WaitForNoANFResource rid get 3 = (3, 3, .error (.exceededRetries 3))) ∧
    (∀ (get : Nat → Option GoErr) (k : Nat), k < 3 →
      (∀ j, j < k → (get j).isSome = true) → get k = none →
      WaitForANFResource rid get 3 = (k + 1, k + 1, .ok ())) ∧
    (∀ get : Nat → Option GoErr, (∀ i, (get i).isSome = true) →
      WaitForANFResource rid get 3 = (3, 3, .error (.stillNotFound 3 (get 2)))) := by
  refine ⟨?_, ?_, ?_, ?_⟩
  · intro get hget
    unfold WaitForNoANFResource
    have h := waitForNoAux_first_some rid get none 0 2 hc (hget 0)
    norm_num at h
    rw [h]
  · intro get hget
    unfold WaitForNoANFResource
    rw [waitForNoAux_all_none rid get hc hget 3 0]
  · intro get k hk hb hl
    unfold WaitForANFResource
    rw [waitForAux_first_none rid get hc k 3 0 none hk
      (fun j hj => by simpa using hb j hj) (by simpa using hl)]
  · intro get hget
    unfold WaitForANFResource
    have h := waitForAux_all_some rid get hc hget 2 0 none
    norm_num at h
    rw [h]

/-- C2 witness: the poller theorem applied to a concrete volume path and
concrete always-erroring and never-erroring oracles. -/
theorem c2_pollers_witness :
    WaitForNoANFResource vPath errOracle 3 = (1, 1, .ok ()) ∧
    WaitForNoANFResource vPath nilOracle 3 = (3, 3, .error (.exceededRetries 3)) ∧
    WaitForANFResource vPath nilOracle 3 = (1, 1, .ok ()) ∧
    WaitForANFResource vPath errOracle 3 = (3, 3, .error (.stillNotFound 3 (errOracle 2))) := by
  have h := c2_pollers_with_three_retries vPath (by decide)
  exact ⟨h.1 errOracle (fun i => rfl), h.2.1 nilOracle (fun i => rfl),
    h.2.2.1 nilOracle 0 (by decide) (fun j hj => absurd hj (by omega)) rfl,
    h.2.2.2 errOracle (fun i => rfl)⟩

/-- C8: on a path no classifier matches, no remote get is ever
dispatched and err keeps its initial nil value, so WaitForANFResource
returns nil after exactly one sleep and zero calls, while
WaitForNoANFResource runs all retries and reports retries-exceeded. -/
theorem c8_inert_dispatch (rid : List Char) (hnc : anfKindMatch rid = false) :
    (∀ (get : Nat → Option GoErr) (retries : Nat), 1 ≤ retries →
      WaitForANFResource rid get retries = (1, 0, .ok ())) ∧
    (∀ (get : Nat → Option GoErr) (retries : Nat),
      WaitForNoANFResource rid get retries =
        (retries, 0, .error (.exceededRetries retries))) := by
  constructor
  · intro get retries hr
    obtain ⟨f, rfl⟩ : ∃ f, retries = f + 1 := ⟨retries - 1, by omega⟩
    have h : waitForAux rid get none 0 (f + 1) = (1, 0, none) := by
      simp [waitForAux, dispatchGet_eq, hnc]
    unfold WaitForANFResource
    rw [h]
  · intro get retries
    unfold WaitForNoANFResource
    rw [waitForNoAux_none_kind rid get hnc retries 0]

/-- C8 witness: the inert-dispatch theorem applied to a concrete path
without the provider token and an always-erroring oracle. -/
theorem c8_inert_witness :
    WaitForANFResource inertPath errOracle 3 = (1, 0, .ok ()) ∧
    WaitForNoANFResource inertPath errOracle 3 = (3, 0, .error (.exceededRetries 3)) := by
  have h := c8_inert_dispatch inertPath (by decide)
  exact ⟨h.1 errOracle 3 (by decide), h.2 errOracle 3⟩

/-- C5: each gateway create or update operation propagates a completion
(poll-until-done) failure as a non-nil error, except
UpdateANFSnapshotPolicy, which drops the completion error and returns the
zero-valued response with a nil error, contradicting the claim. -/
theorem c5_updateSnapshotPolicy_ignores_completion_error :
    ∀ (α : Type) (zero : α) (e : GoErr),
      UpdateANFSnapshotPolicy α none (.ok ()) (.error e) zero = .ok zero ∧
      CreateANFAccount α none (.ok ()) (.error e) =
        .error (.wrap "cannot get the account create or update future response: ".data e) ∧
      CreateANFCapacityPool α "Premium".data none (.ok ()) (.error e) =
        .error (.wrap "cannot get the pool create or update future response: ".data e) ∧
      CreateANFVolume α [nfsv3] "Premium".data none (.ok ()) (.error e) =
        some (.error (.wrap "cannot get the volume create or update future response: ".data e)) ∧
      UpdateANFVolume α none (.ok ()) (.error e) = .error e ∧
      CreateANFSnapshot α none (.ok ()) (.error e) =
        .error (.wrap "cannot get the snapshot create or update future response: ".data e) ∧
      CreateANFSnapshotPolicy α none (.error e) =
        .error (.wrap "cannot create snapshot policy: ".data e) := by
  intro α zero e
  exact ⟨rfl, rfl, rfl, rfl, rfl, rfl, rfl⟩

/-- C7: the service-tier validation is case-insensitive on the three
valid tiers and rejects everything else with the error message that
enumerates exactly Premium, Standard and Ultra. -/
theorem c7_validateANFServiceLevel_cases :
    validateANFServiceLevel "Premium".data = .ok .premium ∧
    validateANFServiceLevel "premium".data = .ok .premium ∧
    validateANFServiceLevel "PREMIUM".data = .ok .premium ∧
    validateANFServiceLevel "Ultra".data = .ok .ultra ∧
    validateANFServiceLevel "ultra".data = .ok .ultra ∧
    validateANFServiceLevel "ULTRA".data = .ok .ultra ∧
    validateANFServiceLevel "Standard".data = .ok .standard ∧
    validateANFServiceLevel "standard".data = .ok .standard ∧
    validateANFServiceLevel "STANDARD".data = .ok .standard ∧
    (∀ s : List Char, toLowerL s ≠ "ultra".data → toLowerL s ≠ "premium".data →
      toLowerL s ≠ "standard".data →
      validateANFServiceLevel s = .error (.msg invalidServiceLevelMsg)) ∧
    (idxOf? "Ultra".data invalidServiceLevelMsg).isSome = true ∧
    (idxOf? "Premium".data invalidServiceLevelMsg).isSome = true ∧
    (idxOf? "Standard".data invalidServiceLevelMsg).isSome = true := by
  refine ⟨by decide, by decide, by decide, by decide, by decide, by decide,
    by decide, by decide, by decide, ?_, by decide, by decide, by decide⟩
  intro s h1 h2 h3
  simp only [validateANFServiceLevel, if_neg h1, if_neg h2, if_neg h3]

/-- C7 witness: the default branch of the validation theorem applied to
the concrete input gold. -/
theorem c7_validate_witness :
    validateANFServiceLevel "gold".data = .error (.msg invalidServiceLevelMsg) :=
  c7_validateANFServiceLevel_cases.2.2.2.2.2.2.2.2.2.1 "gold".data
    (by decide) (by decide) (by decide)

/-- C9: GetTiBInBytes returns 0 for every input because the product is
taken in 32-bit unsigned arithmetic before widening, so the round trip
GetBytesInTiB of GetTiBInBytes is 0, not the identity, for nonzero input. -/
theorem c9_getTiBInBytes_zero (s : Nat) :
    GetTiBInBytes s = 0 ∧ GetBytesInTiB (GetTiBInBytes s) = 0 ∧
      (0 < s → GetBytesInTiB (GetTiBInBytes s) ≠ s) := by
  have h : GetTiBInBytes s = 0 := by
    have e : s * 1024 * 1024 * 1024 * 1024 = s * 256 * U32 := by unfold U32; ring
    unfold GetTiBInBytes
    simp only [Nat.mod_mul_mod]
    rw [e, Nat.mul_mod_left]
  refine ⟨h, ?_, ?_⟩
  · rw [h]; rfl
  · intro hs
    rw [h]
    have h0 : GetBytesInTiB 0 = 0 := rfl
    rw [h0]
    omega

/-- C9 witness: the round trip collapses 1 TiB to 0. -/
theorem c9_roundtrip_witness : GetBytesInTiB (GetTiBInBytes 1) ≠ 1 :=
  (c9_getTiBInBytes_zero 1).2.2 (by decide)

/-- C10: with an empty protocol list both protocol validations pass and
the unguarded first-element access panics, modelled here by none, so the
empty list escapes the local error contract of CreateANFVolume. -/
theorem c10_empty_protocol_list_panics :
    ∀ (α : Type) (sl : List Char) (ce : Option GoErr)
      (br : Except GoErr Unit) (pr : Except GoErr α),
      CreateANFVolume α [] sl ce br pr = none := by
  intro α sl ce br pr
  rfl

/-- C4: CreateANFVolume rejects any protocol list of length three or more
with the maximum-two error, rejects any length-two list containing
NFSv4.1 with the dual-protocol error, lets the list NFSv3, CIFS through
protocol validation, and rejects a nonempty list whose first element is
outside the supported set with the invalid-protocol error, all before and
independent of any remote interaction. -/
theorem c4_createVolume_protocol_validation :
    (∀ (α : Type) (pts : List (List Char)) (sl : List Char) (ce : Option GoErr)
      (br : Except GoErr Unit) (pr : Except GoErr α), 3 ≤ pts.length →
      CreateANFVolume α pts sl ce br pr =
        some (.error (.msg "maximum of two protocol types are supported".data))) ∧
    (∀ (α : Type) (pts : List (List Char)) (sl : List Char) (ce : Option GoErr)
      (br : Except GoErr Unit) (pr : Except GoErr α),
      pts.length = 2 → Contains pts nfsv41 = true →
      CreateANFVolume α pts sl ce br pr =
        some (.error (.msg "only cifs/nfsv3 protocol types are supported as dual protocol".data))) ∧
    checkVolumeProtocols [nfsv41, cifs] =
      some (some (.msg "only cifs/nfsv3 protocol types are supported as dual protocol".data)) ∧
    checkVolumeProtocols [nfsv3, cifs] = some none ∧
    (∀ (p0 : List Char) (rest : List (List Char)),
      (p0 :: rest).length ≤ 2 →
      ¬(1 < (p0 :: rest).length ∧ Contains (p0 :: rest) nfsv41 = true) →
      (FindInSlice validProtocols p0).2 = false →
      checkVolumeProtocols (p0 :: rest) =
        some (some (.msg ("invalid protocol type, valid protocol types are: ".data ++
          validProtocolsText)))) := by
  refine ⟨?_, ?_, by decide, by decide, ?_⟩
  · intro α pts sl ce br pr h
    have hc : checkVolumeProtocols pts =
        some (some (.msg "maximum of two protocol types are supported".data)) := by
      unfold checkVolumeProtocols
      rw [if_pos (by omega)]
    unfold CreateANFVolume
    rw [hc]
  · intro α pts sl ce br pr h hcont
    have hc : checkVolumeProtocols pts =
        some (some (.msg "only cifs/nfsv3 protocol types are supported as dual protocol".data)) := by
      unfold checkVolumeProtocols
      rw [if_neg (by omega), if_pos ⟨by omega, hcont⟩]
    unfold CreateANFVolume
    rw [hc]
  · intro p0 rest hlen hdual hfind
    unfold checkVolumeProtocols
    rw [if_neg (by omega), if_neg hdual]
    simp only [List.head?]
    rw [if_pos hfind]

/-- C4 witness: the protocol-validation theorem applied to the concrete
lists of the claim and to the unsupported protocol gold. -/
theorem c4_protocol_witness :
    CreateANFVolume Unit [nfsv3, cifs, nfsv41] "Premium".data none (.ok ()) (.ok ()) =
      some (.error (.msg "maximum of two protocol types are supported".data)) ∧
    CreateANFVolume Unit [nfsv41, cifs] "Premium".data none (.ok ()) (.ok ()) =
      some (.error (.msg "only cifs/nfsv3 protocol types are supported as dual protocol".data)) ∧
    checkVolumeProtocols ["gold".data] =
      some (some (.msg ("invalid protocol type, valid protocol types are: ".data ++
        validProtocolsText))) := by
  have h := c4_createVolume_protocol_validation
  exact ⟨h.1 Unit [nfsv3, cifs, nfsv41] "Premium".data none (.ok ()) (.ok ()) (by decide),
    h.2.1 Unit [nfsv41, cifs] "Premium".data none (.ok ()) (.ok ()) (by decide) (by decide),
    h.2.2.2.2 "gold".data [] (by decide) (by decide) (by decide)⟩

/-- Membership survives dropWhile for an element the predicate rejects. -/
theorem mem_dropWhile_of (p : Char → Bool) :
    ∀ (s : List Char) (c : Char), c ∈ s → p c = false → c ∈ List.dropWhile p s := by
  intro s
  induction s with
  | nil => intro c h _; cases h
  | cons a t ih =>
    intro c hc hp
    rcases List.mem_cons.mp hc with he | ht
    · subst he
      simp [List.dropWhile_cons, hp]
    · by_cases ha : p a = true
      · simpa [List.dropWhile_cons, ha] using ih c ht hp
      · rw [List.dropWhile_cons, if_neg ha]
        exact List.mem_cons_of_mem a ht

/-- A string containing a non-space character does not trim to empty. -/
theorem trimSpace_pos_of_mem (s : List Char) (c : Char)
    (hc : c ∈ s) (hp : goIsSpace c = false) : ¬((trimSpace s).length = 0) := by
  unfold trimSpace
  intro h0
  rw [List.length_eq_zero] at h0
  have h1 : c ∈ List.dropWhile goIsSpace s := mem_dropWhile_of _ s c hc hp
  have h2 : c ∈ (List.dropWhile goIsSpace s).reverse := List.mem_reverse.mpr h1
  have h3 : c ∈ List.dropWhile goIsSpace ((List.dropWhile goIsSpace s).reverse) :=
    mem_dropWhile_of _ _ c h2 hp
  have h4 : c ∈ (List.dropWhile goIsSpace ((List.dropWhile goIsSpace s).reverse)).reverse :=
    List.mem_reverse.mpr h3
  rw [h0] at h4
  cases h4

/-- The first slash of a slash-free segment followed by a slash sits
exactly at the segment length. -/
theorem idxOf?_slash (name q : List Char) (h : '/' ∉ name) :
    idxOf? ['/'] (name ++ '/' :: q) = some name.length := by
  induction name with
  | nil => simp [idxOf?, isPfx]
  | cons a t ih =>
    have ht : '/' ∉ t := fun hm => h (List.mem_cons_of_mem a hm)
    have ha : ¬('/' = a) := fun he => h (List.mem_cons.mpr (Or.inl he))
    simp [idxOf?, isPfx, beq_iff_eq, ha, ih ht]

/-- Splitting on slash peels a leading slash into an empty first part. -/
theorem goSplitAux_slash_head (f : Nat) (t : List Char) :
    goSplitAux ['/'] (f + 1) ('/' :: t) = [] :: goSplitAux ['/'] f t := by
  have h0 : idxOf? ['/'] ('/' :: t) = some 0 := by simp [idxOf?, isPfx]
  simp [goSplitAux, h0]

/-- Splitting on slash peels a slash-free segment as the first part. -/
theorem goSplitAux_seg (f : Nat) (name q : List Char) (h : '/' ∉ name) :
    goSplitAux ['/'] (f + 1) (name ++ '/' :: q) = name :: goSplitAux ['/'] f q := by
  simp only [goSplitAux, idxOf?_slash name q h, List.length_cons, List.length_nil]
  have ht : (name ++ '/' :: q).take name.length = name := List.take_left name ('/' :: q)
  have hd : (name ++ '/' :: q).drop (name.length + 1) = q := by
    rw [show name ++ '/' :: q = (name ++ ['/']) ++ q by simp,
      show name.length + 1 = (name ++ ['/']).length by simp]
    exact List.drop_left _ _
  rw [ht]
  rw [show (0 : Nat) + 1 = 1 from rfl]
  rw [hd]

/-- The first two parts of splitting a suffix of shape slash, segment,
slash, rest on slash are the empty part and the segment. -/
theorem goSplit_slash_decomp (name q : List Char) (h : '/' ∉ name) :
    goSplit ['/'] ('/' :: (name ++ '/' :: q)) =
      [] :: name :: goSplitAux ['/'] (name.length + q.length + 1) q := by
  unfold goSplit
  rw [if_neg (by simp)]
  rw [show ('/' :: (name ++ '/' :: q)).length + 1 = (name.length + q.length + 2) + 1 by
    simp only [List.length_cons, List.length_append]
    omega]
  rw [goSplitAux_slash_head]
  rw [show name.length + q.length + 2 = (name.length + q.length + 1) + 1 from rfl]
  rw [goSplitAux_seg _ name q h]

/-- The core parser in the regular branch: no compound match and a found
marker index reduce it to the guarded segment extraction. -/
theorem core_regular (uri name0 : List Char) (n : Nat)
    (h1 : idxOf? (toLowerL ("/resourceGroups".data ++ name0)) (toLowerL uri) = none)
    (h2 : idxOf? (toLowerL name0) (toLowerL uri) = some n) :
    getResourceValueCore uri name0 =
      if 1 < (goSplit ['/'] (uri.drop (n + name0.length))).length then
        some ((goSplit ['/'] (uri.drop (n + name0.length))).getD 1 [])
      else some [] := by
  unfold getResourceValueCore
  rw [h1]
  rw [if_neg (by simp)]
  rw [h2]

/-- C1: GetResourceValue returns the empty string, not an error, on
empty inputs, but on the compound special case whose suffix after the
last marker occurrence has no further slash segment the unguarded
element-1 access is an index out of range, modelled by none: the Go
program panics on GetResourceValue of resourceGroups slash volumes with
marker volumes, contradicting the never-fails contract. -/
theorem c1_parser_totality_and_compound_panic :
    (∀ nm : List Char, GetResourceValue [] nm = some []) ∧
    (∀ u : List Char, GetResourceValue u [] = some []) ∧
    GetResourceValue "/resourceGroups/volumes".data "/volumes".data = none := by
  refine ⟨?_, ?_, by decide⟩
  · intro nm
    rfl
  · intro u
    unfold GetResourceValue
    split
    · rfl
    · rw [if_pos (show (trimSpace ([] : List Char)).length = 0 from rfl)]

/-- Compound-case path whose volume segment carries upper-case letters. -/
def c3CompoundUri : List Char :=
  "/subscriptions/sub1/resourceGroups/volumes/providers/Microsoft.NetApp/netAppAccounts/acct1/capacityPools/pool1/volumes/MyVol/mountTargets/mt1".data

/-- Well-formed path head used by the C3 witness. -/
def c3P : List Char :=
  "/subscriptions/s/resourceGroups/rg/providers/Microsoft.NetApp/netAppAccounts/a/capacityPools/pl".data

/-- Volume name used by the C3 witness. -/
def c3Name : List Char := "MyVol".data

/-- Path tail used by the C3 witness. -/
def c3Q : List Char := "mountTargets/x".data

/-- C3 amended: for every path of shape head, volumes marker, slash-free
name, slash, tail, where the path starts with a slash, the compound
resourceGroups marker does not occur and the first case-insensitive
marker occurrence is the marker itself, GetResourceValue with marker
volumes (and GetANFVolume) return exactly the original name with its
letter case; when the compound special case does trigger the value is
taken from the lowercased path instead, so only the lowercased name is
returned there, as the concrete compound path shows. -/
theorem c3_amended_volume_extraction :
    (∀ p name q : List Char,
      isPfx ['/'] (p ++ "/volumes".data ++ '/' :: (name ++ '/' :: q)) = true →
      idxOf? (toLowerL "/resourceGroups/volumes".data)
        (toLowerL (p ++ "/volumes".data ++ '/' :: (name ++ '/' :: q))) = none →
      idxOf? (toLowerL "/volumes".data)
        (toLowerL (p ++ "/volumes".data ++ '/' :: (name ++ '/' :: q))) = some p.length →
      '/' ∉ name →
      GetResourceValue (p ++ "/volumes".data ++ '/' :: (name ++ '/' :: q)) "/volumes".data
        = some name ∧
      GetANFVolume (p ++ "/volumes".data ++ '/' :: (name ++ '/' :: q)) = some name) ∧
    GetResourceValue c3CompoundUri "/volumes".data = some ("myvol".data) := by
  refine ⟨?_, by decide⟩
  intro p name q h0 h1 h2 hn
  set uri := p ++ "/volumes".data ++ '/' :: (name ++ '/' :: q) with huri
  have hmem : '/' ∈ uri := by
    rw [huri]
    exact List.mem_append.mpr (Or.inl (List.mem_append.mpr (Or.inr (by decide))))
  have htrim : ¬((trimSpace uri).length = 0) :=
    trimSpace_pos_of_mem uri '/' hmem (by decide)
  have hrg : "/resourceGroups".data ++ "/volumes".data = "/resourceGroups/volumes".data := by
    decide
  have h1' : idxOf? (toLowerL ("/resourceGroups".data ++ "/volumes".data))
      (toLowerL uri) = none := by
    rw [hrg]; exact h1
  have hdrop : uri.drop (p.length + ("/volumes".data).length) = '/' :: (name ++ '/' :: q) := by
    rw [huri, show p.length + ("/volumes".data).length = (p ++ "/volumes".data).length by simp]
    exact List.drop_left _ _
  have hmain : GetResourceValue uri "/volumes".data = some name := by
    unfold GetResourceValue
    rw [if_neg htrim,
      if_neg (show ¬((trimSpace "/volumes".data).length = 0) from by decide)]
    have haddu : addSlash uri = uri := by unfold addSlash; rw [if_pos h0]
    have haddm : addSlash "/volumes".data = "/volumes".data := by decide
    rw [haddu, haddm]
    rw [core_regular uri "/volumes".data p.length h1' h2]
    rw [hdrop, goSplit_slash_decomp name q hn]
    rw [if_pos (show 1 < ([] :: name ::
      goSplitAux ['/'] (name.length + q.length + 1) q).length from by
        simp only [List.length_cons]; omega)]
    rfl
  refine ⟨hmain, ?_⟩
  unfold GetANFVolume
  rw [if_neg htrim]
  exact hmain

/-- C3 witness: the amended theorem applied to a concrete standard path
with mixed-case volume name MyVol. -/
theorem c3_amended_witness :
    GetResourceValue (c3P ++ "/volumes".data ++ '/' :: (c3Name ++ '/' :: c3Q))
      "/volumes".data = some c3Name ∧
    GetANFVolume (c3P ++ "/volumes".data ++ '/' :: (c3Name ++ '/' :: c3Q)) = some c3Name :=
  c3_amended_volume_extraction.1 c3P c3Name c3Q (by decide) (by decide) (by decide) (by decide)

/-- C3 counterexample: on a well-formed path whose resource group is
named volumes, the compound special case returns the lowercased myvol,
not the original MyVol, refuting character-for-character preservation. -/
theorem c3_counterexample_case_lost :
    GetResourceValue c3CompoundUri "/volumes".data = some ("myvol".data) ∧
    ¬(GetResourceValue c3CompoundUri "/volumes".data = some ("MyVol".data)) :=
  ⟨by decide, by decide⟩

end Goanf
